import Mathlib

/-!
Shallow embedding of `.github/scripts/slack-notifier.py` (SlackNotifier).

The script loads a JSON test summary, renders a Slack message payload
(block-kit blocks plus fallback text), issues one HTTP POST (webhook or
bot-token mode) and reports the outcome through the process exit code.

Modelling conventions:
* A JSON summary dict is a `Summary` record of optional fields;
  `dict.get(key, default)` is `Option.getD`.
* Credential strings: Python tests credentials with truthiness
  (`if self.webhook_url:`), under which `None` and `""` behave
  identically, so both are modelled as the empty string `""`.
* `datetime.now().strftime(...)` in the context footer is an impure clock
  read; it is embedded as an explicit `now : String` argument holding the
  formatted timestamp.
* The HTTP layer is a function `Dest → Payload → TransportResult`
  supplied by the environment: `TransportResult.exn` models
  `requests.post` raising, `TransportResult.response` a returned
  response whose `.json()` result is an `Except` (error = the parse
  raising, or the body not being a dict so that `.get` raises).
-/

namespace SlackNotifier

/-- The JSON test-summary record. Every field is optional, mirroring the
arbitrary dict returned by `json.load`; reads in the script go through
`dict.get` with an explicit default. Counters and coverage are JSON
integers. -/
structure Summary where
  sandbox : Option String
  total_tests : Option Int
  passed_tests : Option Int
  failed_tests : Option Int
  avg_coverage : Option Int
  status : Option String
  coverage_status : Option String
deriving DecidableEq, Repr

/-- The `github_context` dict built in `main` (keys may be absent when the
class is driven programmatically, hence optional; reads use `.get` with a
default). -/
structure GithubContext where
  server_url : Option String
  repository : Option String
  run_id : Option String
  trigger : Option String
deriving DecidableEq, Repr

/-- `SlackNotifier.__init__` state: webhook URL, bot token (both `""` when
absent, see the truthiness convention above) and target channel. -/
structure Config where
  webhook_url : String
  bot_token : String
  channel : String
deriving DecidableEq, Repr

/-- `SlackNotifier.__init__`: raises `ValueError` when neither credential
is truthy, otherwise stores the three fields. -/
def init (webhook_url bot_token channel : String) : Except String Config :=
  if webhook_url = "" ∧ bot_token = "" then
    .error "Either webhook_url or bot_token must be provided"
  else
    .ok ⟨webhook_url, bot_token, channel⟩

/-- The record returned by `load_test_summary` when the file cannot be
read or parsed (the `except` branch, source lines 30-38). -/
def fallback_summary : Summary :=
  { sandbox := some "Unknown"
    total_tests := some 0
    passed_tests := some 0
    failed_tests := some 0
    avg_coverage := some 0
    status := some "❓ Unknown"
    coverage_status := some "❓ Unknown" }

/-- `load_test_summary`: `none` models any read/parse failure of the file
(the `except Exception` branch, which also prints a warning diagnostic);
`some s` the successfully parsed dict, returned unchanged. -/
def load_test_summary : Option Summary → Summary
  | some s => s
  | none => fallback_summary

/-- The `(color, status_emoji, overall_status)` triple selected at source
lines 43-51: green/check/SUCCESS iff `failed_tests == 0` and
`total_tests > 0`, else red/cross/FAILED. -/
def status_triple (summary : Summary) : String × String × String :=
  if summary.failed_tests.getD 0 = 0 ∧ summary.total_tests.getD 0 > 0 then
    ("#36a64f", "✅", "SUCCESS")
  else
    ("#ff0000", "❌", "FAILED")

/-- The coverage marker (`coverage_color`) selected at source lines
53-60. -/
def coverage_marker (coverage_pct : Int) : String :=
  if coverage_pct ≥ 75 then "✅"
  else if coverage_pct ≥ 50 then "⚠️"
  else "❌"

/-- One Slack block-kit block, by the JSON shapes the script emits:
a plain-text header, a section carrying a list of mrkdwn fields, a
section carrying one mrkdwn text, an actions block of buttons
`(label, url, optional style)`, and a context block of mrkdwn
elements. -/
inductive Block where
  | header (text : String)
  | sectionFields (fields : List String)
  | sectionText (text : String)
  | actions (elements : List (String × String × Option String))
  | context (elements : List String)
deriving DecidableEq, Repr

/-- The rendered message payload. `username` / `icon_emoji` are `none`
when the corresponding JSON keys are absent (bot-token-mode payload). -/
structure Payload where
  channel : String
  username : Option String
  icon_emoji : Option String
  blocks : List Block
  text : String
deriving DecidableEq, Repr

/-- URL of the "View Detailed Report" button (source line 124). -/
def run_url (github_context : GithubContext) : String :=
  github_context.server_url.getD "https://github.com" ++ "/" ++
    github_context.repository.getD "unknown" ++ "/actions/runs/" ++
    github_context.run_id.getD "unknown"

/-- URL of the "View Repository" button (source line 133). -/
def repo_url (github_context : GithubContext) : String :=
  github_context.server_url.getD "https://github.com" ++ "/" ++
    github_context.repository.getD "unknown"

/-- ASCII case lowering of one character, as Python `str.lower()` acts on
the ASCII-only strings this script lowercases (`"SUCCESS"`/`"FAILED"`). -/
def lower_char (c : Char) : Char :=
  if 'A' ≤ c ∧ c ≤ 'Z' then Char.ofNat (c.toNat + 32) else c

/-- `overall_status.lower()` (source lines 157/163). -/
def lower_str (s : String) : String := ⟨s.data.map lower_char⟩

/-- The header block (source lines 64-70). -/
def header_block (summary : Summary) : Block :=
  Block.header ((status_triple summary).2.1 ++ " Salesforce Test Results - " ++
    summary.sandbox.getD "Unknown")

/-- The four-field grid section block (source lines 71-91). -/
def fields_block (summary : Summary) : Block :=
  Block.sectionFields
    ["*Environment:*\n" ++ summary.sandbox.getD "Unknown",
     "*Status:*\n" ++ (status_triple summary).2.1 ++ " " ++
       (status_triple summary).2.2,
     "*Tests:*\n" ++ toString (summary.passed_tests.getD 0) ++ "/" ++
       toString (summary.total_tests.getD 0) ++ " passed",
     "*Coverage:*\n" ++ toString (summary.avg_coverage.getD 0) ++ "% " ++
       coverage_marker (summary.avg_coverage.getD 0)]

/-- The failure-callout section block (source lines 95-102), appended
when `failed_tests > 0`. -/
def failure_block (failed : Int) : Block :=
  Block.sectionText ("⚠️ *" ++ toString failed ++
    " tests failed* - Immediate attention required")

/-- The coverage-alert section block (source lines 104-112), appended
when `coverage_pct < 75`. -/
def coverage_alert_block (coverage_pct : Int) : Block :=
  Block.sectionText ("📊 *Coverage Alert:* " ++ toString coverage_pct ++
    "% is below the recommended 75% threshold")

/-- The action-buttons block (source lines 114-136). -/
def actions_block (github_context : GithubContext) : Block :=
  Block.actions
    [("View Detailed Report", run_url github_context, some "primary"),
     ("View Repository", repo_url github_context, none)]

/-- The context-footer block (source lines 138-147); `now` is the
formatted clock reading. -/
def context_block (github_context : GithubContext) (now : String) : Block :=
  Block.context
    ["🤖 Triggered by: " ++ github_context.trigger.getD "Unknown" ++
      " | 📅 " ++ now]

/-- The `blocks` list of `create_message_payload` (source lines 62-147):
header and field grid, the two conditional callouts, action buttons,
context footer. -/
def payload_blocks (summary : Summary) (github_context : GithubContext)
    (now : String) : List Block :=
  [header_block summary, fields_block summary] ++
    (if summary.failed_tests.getD 0 > 0 then
      [failure_block (summary.failed_tests.getD 0)] else []) ++
    (if summary.avg_coverage.getD 0 < 75 then
      [coverage_alert_block (summary.avg_coverage.getD 0)] else []) ++
    [actions_block github_context] ++
    [context_block github_context now]

/-- The fallback plaintext `text` field (source lines 157 and 163,
identical in both branches). -/
def payload_text (summary : Summary) : String :=
  (status_triple summary).2.1 ++ " Salesforce tests " ++
    lower_str (status_triple summary).2.2 ++ " for " ++
    summary.sandbox.getD "Unknown" ++ " - " ++
    toString (summary.passed_tests.getD 0) ++ "/" ++
    toString (summary.total_tests.getD 0) ++ " tests passed, " ++
    toString (summary.avg_coverage.getD 0) ++ "% coverage"

/-- `create_message_payload` (source lines 40-164). `now` is the
`datetime.now().strftime('%Y-%m-%d %H:%M:%S UTC')` string read from the
clock at render time. The webhook-mode payload (truthy
`self.webhook_url`) additionally carries `username` and `icon_emoji`;
the bot-mode dict literal omits those two keys. -/
def create_message_payload (cfg : Config) (summary : Summary)
    (github_context : GithubContext) (now : String) : Payload :=
  if cfg.webhook_url ≠ "" then
    { channel := cfg.channel
      username := some "Salesforce CI Bot"
      icon_emoji := some ":salesforce:"
      blocks := payload_blocks summary github_context now
      text := payload_text summary }
  else
    { channel := cfg.channel
      username := none
      icon_emoji := none
      blocks := payload_blocks summary github_context now
      text := payload_text summary }

/-- A JSON scalar value, as far as Python truthiness of the response's
`ok` field is concerned. -/
inductive Jval where
  | null
  | bool (b : Bool)
  | num (n : Int)
  | str (s : String)
deriving DecidableEq, Repr

/-- Python truthiness of `result.get('ok')`: `None` (key absent), `None`
value, `False`, `0` and `""` are falsy; everything else truthy. -/
def truthy : Option Jval → Bool
  | none => false
  | some Jval.null => false
  | some (Jval.bool b) => b
  | some (Jval.num n) => n != 0
  | some (Jval.str s) => s != ""

/-- The dict parsed from the bot-mode HTTP response body;
`ok = result.get('ok')`, `none` when the key is absent. -/
structure ParsedBody where
  ok : Option Jval
  error_field : Option Jval
deriving DecidableEq, Repr

/-- An HTTP response as the script consumes it: status code, raw text,
and the outcome of `response.json()` (`Except.error` models that call
raising — malformed body, or a non-dict body making `result.get`
raise). -/
structure HttpResponse where
  status_code : Int
  text : String
  jsonBody : Except String ParsedBody

/-- Outcome of one `requests.post` call: either a response, or the call
raising (network failure, timeout, ...). -/
inductive TransportResult where
  | response (r : HttpResponse)
  | exn (msg : String)

/-- Destination of the single POST: the configured webhook URL, or the
fixed `https://slack.com/api/chat.postMessage` bot endpoint. -/
inductive Dest where
  | webhook (url : String)
  | botApi
deriving DecidableEq, Repr

/-- The request `send_notification` would issue, mirroring its
`if self.webhook_url: ... elif self.bot_token: ...` branch structure:
`none` when neither credential is truthy (no request is made). -/
def issued_request (cfg : Config) (payload : Payload) :
    Option (Dest × Payload) :=
  if cfg.webhook_url ≠ "" then some (Dest.webhook cfg.webhook_url, payload)
  else if cfg.bot_token ≠ "" then some (Dest.botApi, payload)
  else none

/-- `send_notification` (source lines 166-205). `transport` is the
ambient HTTP layer answering the one POST. Returns `none` exactly on the
fall-through path where neither credential is truthy (Python returns
`None` there); with a credential it returns `some b`. Every exception
inside a taken branch is caught and yields `some false`. -/
def send_notification (cfg : Config)
    (transport : Dest → Payload → TransportResult) (payload : Payload) :
    Option Bool :=
  if cfg.webhook_url ≠ "" then
    match transport (Dest.webhook cfg.webhook_url) payload with
    | TransportResult.exn _ => some false
    | TransportResult.response r => some (r.status_code == 200)
  else if cfg.bot_token ≠ "" then
    match transport Dest.botApi payload with
    | TransportResult.exn _ => some false
    | TransportResult.response r =>
      match r.jsonBody with
      | Except.error _ => some false
      | Except.ok body => some (truthy body.ok)
  else
    none

/-- `send_test_results` (source lines 207-211): load, render, deliver.
`file` is the outcome of reading the summary file (`none` = unreadable
or unparsable). -/
def send_test_results (cfg : Config) (file : Option Summary)
    (github_context : GithubContext) (now : String)
    (transport : Dest → Payload → TransportResult) : Option Bool :=
  let summary := load_test_summary file
  let payload := create_message_payload cfg summary github_context now
  send_notification cfg transport payload

/-- The environment variables `main` reads; `none` = variable unset. -/
structure Env where
  github_server_url : Option String
  github_repository : Option String
  github_run_id : Option String
  github_event_name : Option String
  slack_webhook_url : Option String
  slack_bot_token : Option String
  slack_channel : Option String
deriving Repr

/-- The `github_context` dict built in `main` (source lines 222-227):
positional CLI argument when present, else environment variable, else a
literal default. `argv` includes the script name at index 0. -/
def main_context (argv : List String) (env : Env) : GithubContext :=
  { server_url := some (argv.getD 2 (env.github_server_url.getD "https://github.com"))
    repository := some (argv.getD 3 (env.github_repository.getD "unknown/unknown"))
    run_id := some (argv.getD 4 (env.github_run_id.getD "unknown"))
    trigger := some (argv.getD 5 (env.github_event_name.getD "unknown")) }

/-- The credentials/channel `main` reads from the environment (source
lines 230-232), under the truthiness convention (unset ↦ `""`). -/
def main_config (env : Env) : Config :=
  { webhook_url := env.slack_webhook_url.getD ""
    bot_token := env.slack_bot_token.getD ""
    channel := env.slack_channel.getD "#salesforce-ci" }

/-- Observable outcome of one `main` run: the process exit code, and the
single HTTP request issued (`none` when the process exited without
attempting any network call). -/
structure MainResult where
  exit_code : Int
  request : Option (Dest × Payload)

/-- `main` (source lines 213-245). `file` models the read of
`argv[1]`; `now` the clock; `transport` the HTTP layer. Paths: usage
error (fewer than 2 argv entries) exits 1; missing credentials exits 1
before any request; otherwise the notifier is constructed (the
`except` branch maps any construction error to exit 1) and
`send_test_results` runs, exit 0 iff it returned `True`. -/
def main (argv : List String) (env : Env) (now : String)
    (file : Option Summary)
    (transport : Dest → Payload → TransportResult) : MainResult :=
  if argv.length < 2 then ⟨1, none⟩
  else
    let github_context := main_context argv env
    let webhook_url := (main_config env).webhook_url
    let bot_token := (main_config env).bot_token
    let channel := (main_config env).channel
    if webhook_url = "" ∧ bot_token = "" then ⟨1, none⟩
    else
      match init webhook_url bot_token channel with
      | Except.error _ => ⟨1, none⟩
      | Except.ok cfg =>
        let payload :=
          create_message_payload cfg (load_test_summary file) github_context now
        let success := send_notification cfg transport payload
        ⟨if success = some true then 0 else 1, issued_request cfg payload⟩

/-! ### Helper lemmas -/

lemma create_message_payload_blocks (cfg : Config) (s : Summary)
    (ctx : GithubContext) (now : String) :
    (create_message_payload cfg s ctx now).blocks = payload_blocks s ctx now := by
  unfold create_message_payload
  split <;> rfl

lemma create_message_payload_text (cfg : Config) (s : Summary)
    (ctx : GithubContext) (now : String) :
    (create_message_payload cfg s ctx now).text = payload_text s := by
  unfold create_message_payload
  split <;> rfl

lemma create_message_payload_channel (cfg : Config) (s : Summary)
    (ctx : GithubContext) (now : String) :
    (create_message_payload cfg s ctx now).channel = cfg.channel := by
  unfold create_message_payload
  split <;> rfl

lemma payload_blocks_cons (s : Summary) (ctx : GithubContext) (now : String) :
    payload_blocks s ctx now = header_block s :: fields_block s ::
      ((((if s.failed_tests.getD 0 > 0 then
            [failure_block (s.failed_tests.getD 0)] else []) ++
          (if s.avg_coverage.getD 0 < 75 then
            [coverage_alert_block (s.avg_coverage.getD 0)] else [])) ++
         [actions_block ctx]) ++
        [context_block ctx now]) := by
  simp [payload_blocks]

/-- The failure-callout and coverage-alert messages differ for every
pair of counts: their first characters differ. -/
lemma warn_text_ne_alert_text (f c : Int) :
    ("⚠️ *" ++ toString f ++ " tests failed* - Immediate attention required") ≠
      ("📊 *Coverage Alert:* " ++ toString c ++
        "% is below the recommended 75% threshold") := by
  intro h
  have e1 : ("⚠️ *" : String) = "⚠" ++ "️ *" := rfl
  have e2 : ("📊 *Coverage Alert:* " : String) = "📊" ++ " *Coverage Alert:* " := rfl
  have h2 := congrArg String.data h
  rw [e1, e2] at h2
  simp only [String.data_append] at h2
  simp only [List.cons_append, List.nil_append] at h2
  have h3 := congrArg List.head? h2
  simp only [List.head?_cons] at h3
  exact absurd (Option.some.inj h3) (by decide)

lemma failure_block_ne_coverage_alert_block (f c : Int) :
    failure_block f ≠ coverage_alert_block c := by
  simp only [failure_block, coverage_alert_block, ne_eq,
    Block.sectionText.injEq]
  exact warn_text_ne_alert_text f c

lemma coverage_alert_block_ne_failure_block (c f : Int) :
    coverage_alert_block c ≠ failure_block f :=
  fun h => failure_block_ne_coverage_alert_block f c h.symm

lemma alert_text_ne_warn_text (c f : Int) :
    ("📊 *Coverage Alert:* " ++ toString c ++
        "% is below the recommended 75% threshold") ≠
      ("⚠️ *" ++ toString f ++ " tests failed* - Immediate attention required") :=
  fun h => warn_text_ne_alert_text f c h.symm

/-! ### Claims -/

/-- C1: the payload marks overall status SUCCESS (green color
`#36a64f`, check emoji) exactly when `failed_tests == 0` and
`total_tests > 0`, with both fields defaulting to 0 when absent; in
every other combination it marks FAILED (red, cross emoji). The status
is rendered into the field grid at position 1 of the blocks list. -/
theorem claim_C1 (cfg : Config) (s : Summary) (ctx : GithubContext)
    (now : String) :
    (status_triple s = ("#36a64f", "✅", "SUCCESS") ↔
      (s.failed_tests.getD 0 = 0 ∧ 0 < s.total_tests.getD 0)) ∧
    (status_triple s = ("#ff0000", "❌", "FAILED") ↔
      ¬(s.failed_tests.getD 0 = 0 ∧ 0 < s.total_tests.getD 0)) ∧
    (∃ rest, (create_message_payload cfg s ctx now).blocks =
      header_block s :: fields_block s :: rest) ∧
    fields_block s = Block.sectionFields
      ["*Environment:*\n" ++ s.sandbox.getD "Unknown",
       "*Status:*\n" ++ (status_triple s).2.1 ++ " " ++ (status_triple s).2.2,
       "*Tests:*\n" ++ toString (s.passed_tests.getD 0) ++ "/" ++
         toString (s.total_tests.getD 0) ++ " passed",
       "*Coverage:*\n" ++ toString (s.avg_coverage.getD 0) ++ "% " ++
         coverage_marker (s.avg_coverage.getD 0)] ∧
    status_triple { s with failed_tests := none } =
      status_triple { s with failed_tests := some 0 } ∧
    status_triple { s with total_tests := none } =
      status_triple { s with total_tests := some 0 } := by
  refine ⟨?_, ?_, ?_, rfl, ?_, ?_⟩
  · by_cases h : s.failed_tests.getD 0 = 0 ∧ 0 < s.total_tests.getD 0 <;>
      simp [status_triple, h]
  · by_cases h : s.failed_tests.getD 0 = 0 ∧ 0 < s.total_tests.getD 0 <;>
      simp [status_triple, h]
  · rw [create_message_payload_blocks]
    exact ⟨_, payload_blocks_cons s ctx now⟩
  · simp [status_triple]
  · simp [status_triple]

/-- C2: the coverage marker rendered into the payload's field grid is
the good marker when coverage ≥ 75, the warning marker when
50 ≤ coverage < 75, the bad marker below 50; boundary values 75 and 50
give the good and warning markers, and a missing `avg_coverage`
defaults to 0. -/
theorem claim_C2 (cfg : Config) (s : Summary) (ctx : GithubContext)
    (now : String) :
    (75 ≤ s.avg_coverage.getD 0 →
      coverage_marker (s.avg_coverage.getD 0) = "✅") ∧
    (50 ≤ s.avg_coverage.getD 0 → s.avg_coverage.getD 0 < 75 →
      coverage_marker (s.avg_coverage.getD 0) = "⚠️") ∧
    (s.avg_coverage.getD 0 < 50 →
      coverage_marker (s.avg_coverage.getD 0) = "❌") ∧
    coverage_marker 75 = "✅" ∧
    coverage_marker 50 = "⚠️" ∧
    (s.avg_coverage = none →
      coverage_marker (s.avg_coverage.getD 0) = coverage_marker 0) ∧
    (∃ rest, (create_message_payload cfg s ctx now).blocks =
      header_block s :: fields_block s :: rest) ∧
    fields_block s = Block.sectionFields
      ["*Environment:*\n" ++ s.sandbox.getD "Unknown",
       "*Status:*\n" ++ (status_triple s).2.1 ++ " " ++ (status_triple s).2.2,
       "*Tests:*\n" ++ toString (s.passed_tests.getD 0) ++ "/" ++
         toString (s.total_tests.getD 0) ++ " passed",
       "*Coverage:*\n" ++ toString (s.avg_coverage.getD 0) ++ "% " ++
         coverage_marker (s.avg_coverage.getD 0)] := by
  refine ⟨?_, ?_, ?_, by simp [coverage_marker], by simp [coverage_marker],
    ?_, ?_, rfl⟩
  · intro h
    simp [coverage_marker, h]
  · intro h1 h2
    unfold coverage_marker
    rw [if_neg (by omega), if_pos (by omega)]
  · intro h
    unfold coverage_marker
    rw [if_neg (by omega), if_neg (by omega)]
  · intro h
    simp [h]
  · rw [create_message_payload_blocks]
    exact ⟨_, payload_blocks_cons s ctx now⟩

/-- C4: the failure-callout block is in the rendered payload exactly
when `failed_tests > 0`, the coverage-alert block exactly when
`avg_coverage < 75`; the two conditions are independent, so both blocks
appear together whenever both conditions hold. -/
theorem claim_C4 (cfg : Config) (s : Summary) (ctx : GithubContext)
    (now : String) :
    ((failure_block (s.failed_tests.getD 0) ∈
        (create_message_payload cfg s ctx now).blocks) ↔
      0 < s.failed_tests.getD 0) ∧
    ((coverage_alert_block (s.avg_coverage.getD 0) ∈
        (create_message_payload cfg s ctx now).blocks) ↔
      s.avg_coverage.getD 0 < 75) ∧
    (0 < s.failed_tests.getD 0 → s.avg_coverage.getD 0 < 75 →
      failure_block (s.failed_tests.getD 0) ∈
          (create_message_payload cfg s ctx now).blocks ∧
        coverage_alert_block (s.avg_coverage.getD 0) ∈
          (create_message_payload cfg s ctx now).blocks) := by
  have hmemF : (failure_block (s.failed_tests.getD 0) ∈
      (create_message_payload cfg s ctx now).blocks) ↔
      0 < s.failed_tests.getD 0 := by
    rw [create_message_payload_blocks, payload_blocks_cons]
    by_cases h1 : 0 < s.failed_tests.getD 0 <;>
      by_cases h2 : s.avg_coverage.getD 0 < 75 <;>
        simp [h1, h2, failure_block, coverage_alert_block, header_block,
          fields_block, actions_block, context_block,
          warn_text_ne_alert_text, alert_text_ne_warn_text]
  have hmemC : (coverage_alert_block (s.avg_coverage.getD 0) ∈
      (create_message_payload cfg s ctx now).blocks) ↔
      s.avg_coverage.getD 0 < 75 := by
    rw [create_message_payload_blocks, payload_blocks_cons]
    by_cases h1 : 0 < s.failed_tests.getD 0 <;>
      by_cases h2 : s.avg_coverage.getD 0 < 75 <;>
        simp [h1, h2, failure_block, coverage_alert_block, header_block,
          fields_block, actions_block, context_block,
          warn_text_ne_alert_text, alert_text_ne_warn_text]
  exact ⟨hmemF, hmemC, fun h1 h2 => ⟨hmemF.mpr h1, hmemC.mpr h2⟩⟩

/-! ### Concrete fixtures for witnesses and counterexamples -/

def sample_summary : Summary :=
  ⟨some "UAT", some 50, some 47, some 3, some 62, none, none⟩

def sample_ctx : GithubContext :=
  ⟨some "https://github.com", some "acme/sfdc", some "42", some "push"⟩

def sample_webhook_cfg : Config :=
  ⟨"https://hooks.example/x", "", "#salesforce-ci"⟩

def sample_env : Env :=
  ⟨none, none, none, none, some "https://hooks.example/x", none, none⟩

def sample_env_nocreds : Env :=
  ⟨none, none, none, none, none, none, none⟩

def sample_transport_200 : Dest → Payload → TransportResult :=
  fun _ _ => TransportResult.response ⟨200, "ok", Except.error "not json"⟩

def summary_cov80 : Summary :=
  ⟨some "UAT", some 50, some 50, some 0, some 80, none, none⟩

def summary_cov40 : Summary :=
  ⟨some "UAT", some 50, some 45, some 5, some 40, none, none⟩

def summary_no_cov : Summary :=
  ⟨some "UAT", some 50, some 50, some 0, none, none, none⟩

/-- C2 witness: concrete coverage values in each tier, and a summary
with the coverage field absent. -/
theorem claim_C2_witness :
    coverage_marker (summary_cov80.avg_coverage.getD 0) = "✅" ∧
    coverage_marker (sample_summary.avg_coverage.getD 0) = "⚠️" ∧
    coverage_marker (summary_cov40.avg_coverage.getD 0) = "❌" ∧
    coverage_marker (summary_no_cov.avg_coverage.getD 0) =
      coverage_marker 0 :=
  ⟨(claim_C2 sample_webhook_cfg summary_cov80 sample_ctx "T").1 (by decide),
   (claim_C2 sample_webhook_cfg sample_summary sample_ctx "T").2.1
     (by decide) (by decide),
   (claim_C2 sample_webhook_cfg summary_cov40 sample_ctx "T").2.2.1
     (by decide),
   (claim_C2 sample_webhook_cfg summary_no_cov sample_ctx "T").2.2.2.2.2.1
     (by decide)⟩

/-- C4 witness: 3 failed tests and 62% coverage make both conditional
blocks appear together. -/
theorem claim_C4_witness :
    failure_block (sample_summary.failed_tests.getD 0) ∈
      (create_message_payload sample_webhook_cfg sample_summary sample_ctx
        "T").blocks ∧
    coverage_alert_block (sample_summary.avg_coverage.getD 0) ∈
      (create_message_payload sample_webhook_cfg sample_summary sample_ctx
        "T").blocks :=
  (claim_C4 sample_webhook_cfg sample_summary sample_ctx "T").2.2
    (by decide) (by decide)

/-- The fallback record exactly as claim C3 states it, status strings
being the plain word `"Unknown"` with no emoji prefix; to be compared
with the record `load_test_summary` actually returns. -/
def spec_fallback_summary : Summary :=
  ⟨some "Unknown", some 0, some 0, some 0, some 0,
    some "Unknown", some "Unknown"⟩

/-- C3 (amended): on any read/parse failure `load_test_summary` returns
the fallback record whose status strings are `"❓ Unknown"`, and the run
still renders a payload from that record and issues the delivery
request. -/
theorem claim_C3 (argv : List String) (env : Env) (now : String)
    (transport : Dest → Payload → TransportResult)
    (h2 : 2 ≤ argv.length) (hw : (main_config env).webhook_url ≠ "") :
    load_test_summary none =
      ⟨some "Unknown", some 0, some 0, some 0, some 0,
        some "❓ Unknown", some "❓ Unknown"⟩ ∧
    (main argv env now none transport).request =
      some (Dest.webhook (main_config env).webhook_url,
        create_message_payload (main_config env) fallback_summary
          (main_context argv env) now) := by
  constructor
  · rfl
  · unfold main
    rw [if_neg (by omega)]
    rw [if_neg (by simp [hw])]
    rw [init, if_neg (by simp [hw])]
    simp [issued_request, hw, load_test_summary]

/-- C3 counterexample: the record returned on a load failure is not the
record the claim writes down — the status strings differ. -/
theorem claim_C3_counterexample :
    load_test_summary none ≠ spec_fallback_summary := by decide

/-- C3 witness: a concrete failed load inside a concrete webhook-mode
run. -/
theorem claim_C3_witness :
    load_test_summary none =
      ⟨some "Unknown", some 0, some 0, some 0, some 0,
        some "❓ Unknown", some "❓ Unknown"⟩ ∧
    (main ["slack-notifier.py", "missing.json"] sample_env "T" none
        sample_transport_200).request =
      some (Dest.webhook (main_config sample_env).webhook_url,
        create_message_payload (main_config sample_env) fallback_summary
          (main_context ["slack-notifier.py", "missing.json"] sample_env)
          "T") :=
  claim_C3 ["slack-notifier.py", "missing.json"] sample_env "T"
    sample_transport_200 (by decide) (by decide)

/-- C5: under the constructor invariant (some credential truthy)
`send_notification` always returns a boolean; in webhook mode it is true
exactly when the POST yields a response with HTTP status 200; in
bot-token mode exactly when the response body parses and its `ok` field
is truthy; a raised transport exception yields false in either mode. -/
theorem claim_C5 (cfg : Config)
    (transport : Dest → Payload → TransportResult) (payload : Payload) :
    ((cfg.webhook_url ≠ "" ∨ cfg.bot_token ≠ "") →
      (send_notification cfg transport payload).isSome = true) ∧
    (cfg.webhook_url ≠ "" →
      ((send_notification cfg transport payload = some true) ↔
        (∃ r : HttpResponse,
          transport (Dest.webhook cfg.webhook_url) payload =
            TransportResult.response r ∧ r.status_code = 200))) ∧
    (cfg.webhook_url = "" → cfg.bot_token ≠ "" →
      ((send_notification cfg transport payload = some true) ↔
        (∃ (r : HttpResponse) (body : ParsedBody),
          transport Dest.botApi payload = TransportResult.response r ∧
          r.jsonBody = Except.ok body ∧ truthy body.ok = true))) ∧
    (cfg.webhook_url ≠ "" → ∀ e,
      transport (Dest.webhook cfg.webhook_url) payload =
        TransportResult.exn e →
      send_notification cfg transport payload = some false) ∧
    (cfg.webhook_url = "" → cfg.bot_token ≠ "" → ∀ e,
      transport Dest.botApi payload = TransportResult.exn e →
      send_notification cfg transport payload = some false) := by
  refine ⟨?_, ?_, ?_, ?_, ?_⟩
  · intro hcred
    unfold send_notification
    rcases hcred with hw | hb
    · rw [if_pos hw]
      cases transport (Dest.webhook cfg.webhook_url) payload <;> simp
    · by_cases hw : cfg.webhook_url ≠ ""
      · rw [if_pos hw]
        cases transport (Dest.webhook cfg.webhook_url) payload <;> simp
      · rw [if_neg hw, if_pos hb]
        cases htr : transport Dest.botApi payload with
        | exn e => simp
        | response r => cases hj : r.jsonBody <;> simp [hj]
  · intro hw
    unfold send_notification
    rw [if_pos hw]
    cases htr : transport (Dest.webhook cfg.webhook_url) payload with
    | exn e => simp [htr]
    | response r => simp [htr, beq_iff_eq]
  · intro hw hb
    unfold send_notification
    rw [if_neg (by simpa using hw), if_pos hb]
    cases htr : transport Dest.botApi payload with
    | exn e => simp [htr]
    | response r =>
      cases hj : r.jsonBody with
      | error e => simp [htr, hj]
      | ok body => simp [htr, hj]
  · intro hw e htr
    unfold send_notification
    rw [if_pos hw, htr]
  · intro hw hb e htr
    unfold send_notification
    rw [if_neg (by simpa using hw), if_pos hb, htr]

/-- C5 witness: a concrete webhook-mode configuration whose transport
answers HTTP 200 delivers successfully. -/
theorem claim_C5_witness :
    send_notification sample_webhook_cfg sample_transport_200
      (create_message_payload sample_webhook_cfg sample_summary sample_ctx
        "T") = some true :=
  ((claim_C5 sample_webhook_cfg sample_transport_200
      (create_message_payload sample_webhook_cfg sample_summary sample_ctx
        "T")).2.1 (by decide)).mpr
    ⟨⟨200, "ok", Except.error "not json"⟩, rfl, rfl⟩

lemma payload_blocks_dropLast (s : Summary) (ctx : GithubContext)
    (now : String) :
    (payload_blocks s ctx now).dropLast =
      [header_block s, fields_block s] ++
        (if s.failed_tests.getD 0 > 0 then
          [failure_block (s.failed_tests.getD 0)] else []) ++
        (if s.avg_coverage.getD 0 < 75 then
          [coverage_alert_block (s.avg_coverage.getD 0)] else []) ++
        [actions_block ctx] := by
  unfold payload_blocks
  rw [List.dropLast_concat]

lemma payload_blocks_getLast (s : Summary) (ctx : GithubContext)
    (now : String) :
    (payload_blocks s ctx now).getLast? = some (context_block ctx now) := by
  unfold payload_blocks
  rw [List.getLast?_concat]

/-- C6 (amended): `create_message_payload` performs no mutation, but it
reads the current clock for the context footer, so its output is a
function of summary, context, configuration AND the render-time
timestamp: for a fixed timestamp the payload is fully determined, and
two renders at different timestamps agree on every component except the
final context-footer block. -/
theorem claim_C6 (cfg : Config) (s : Summary) (ctx : GithubContext)
    (t t' : String) :
    (create_message_payload cfg s ctx t).channel =
      (create_message_payload cfg s ctx t').channel ∧
    (create_message_payload cfg s ctx t).username =
      (create_message_payload cfg s ctx t').username ∧
    (create_message_payload cfg s ctx t).icon_emoji =
      (create_message_payload cfg s ctx t').icon_emoji ∧
    (create_message_payload cfg s ctx t).text =
      (create_message_payload cfg s ctx t').text ∧
    (create_message_payload cfg s ctx t).blocks.dropLast =
      (create_message_payload cfg s ctx t').blocks.dropLast ∧
    (create_message_payload cfg s ctx t).blocks.getLast? =
      some (context_block ctx t) ∧
    (create_message_payload cfg s ctx t').blocks.getLast? =
      some (context_block ctx t') := by
  refine ⟨?_, ?_, ?_, ?_, ?_, ?_, ?_⟩
  · rw [create_message_payload_channel, create_message_payload_channel]
  · by_cases hw : cfg.webhook_url ≠ "" <;> simp [create_message_payload, hw]
  · by_cases hw : cfg.webhook_url ≠ "" <;> simp [create_message_payload, hw]
  · rw [create_message_payload_text, create_message_payload_text]
  · rw [create_message_payload_blocks, create_message_payload_blocks,
      payload_blocks_dropLast, payload_blocks_dropLast]
  · rw [create_message_payload_blocks, payload_blocks_getLast]
  · rw [create_message_payload_blocks, payload_blocks_getLast]

/-- C6 counterexample: with every argument and the configuration fixed,
two renders at different clock readings produce different payloads, so
the output does not depend only on the arguments and configuration. -/
theorem claim_C6_counterexample :
    create_message_payload sample_webhook_cfg sample_summary sample_ctx
        "2024-01-01 00:00:00 UTC" ≠
      create_message_payload sample_webhook_cfg sample_summary sample_ctx
        "2024-01-01 00:00:01 UTC" := by decide

/-- C7: for any summary and context, the webhook-mode payload carries
the display username and icon, the bot-token-mode payload omits both,
and the two payloads agree on channel target, blocks list and fallback
text. -/
theorem claim_C7 (s : Summary) (ctx : GithubContext) (now : String)
    (u bt bt' ch : String) (hu : u ≠ "") :
    (create_message_payload ⟨u, bt, ch⟩ s ctx now).username =
      some "Salesforce CI Bot" ∧
    (create_message_payload ⟨u, bt, ch⟩ s ctx now).icon_emoji =
      some ":salesforce:" ∧
    (create_message_payload ⟨"", bt', ch⟩ s ctx now).username = none ∧
    (create_message_payload ⟨"", bt', ch⟩ s ctx now).icon_emoji = none ∧
    (create_message_payload ⟨u, bt, ch⟩ s ctx now).channel =
      (create_message_payload ⟨"", bt', ch⟩ s ctx now).channel ∧
    (create_message_payload ⟨u, bt, ch⟩ s ctx now).blocks =
      (create_message_payload ⟨"", bt', ch⟩ s ctx now).blocks ∧
    (create_message_payload ⟨u, bt, ch⟩ s ctx now).text =
      (create_message_payload ⟨"", bt', ch⟩ s ctx now).text := by
  simp [create_message_payload, hu]

/-- C7 witness: a concrete webhook-mode / bot-mode configuration
pair. -/
theorem claim_C7_witness :
    (create_message_payload ⟨"https://hooks.example/x", "", "#salesforce-ci"⟩
        sample_summary sample_ctx "T").username =
      some "Salesforce CI Bot" ∧
    (create_message_payload ⟨"https://hooks.example/x", "", "#salesforce-ci"⟩
        sample_summary sample_ctx "T").icon_emoji =
      some ":salesforce:" ∧
    (create_message_payload ⟨"", "xoxb-1", "#salesforce-ci"⟩
        sample_summary sample_ctx "T").username = none ∧
    (create_message_payload ⟨"", "xoxb-1", "#salesforce-ci"⟩
        sample_summary sample_ctx "T").icon_emoji = none ∧
    (create_message_payload ⟨"https://hooks.example/x", "", "#salesforce-ci"⟩
        sample_summary sample_ctx "T").channel =
      (create_message_payload ⟨"", "xoxb-1", "#salesforce-ci"⟩
        sample_summary sample_ctx "T").channel ∧
    (create_message_payload ⟨"https://hooks.example/x", "", "#salesforce-ci"⟩
        sample_summary sample_ctx "T").blocks =
      (create_message_payload ⟨"", "xoxb-1", "#salesforce-ci"⟩
        sample_summary sample_ctx "T").blocks ∧
    (create_message_payload ⟨"https://hooks.example/x", "", "#salesforce-ci"⟩
        sample_summary sample_ctx "T").text =
      (create_message_payload ⟨"", "xoxb-1", "#salesforce-ci"⟩
        sample_summary sample_ctx "T").text :=
  claim_C7 sample_summary sample_ctx "T" "https://hooks.example/x" ""
    "xoxb-1" "#salesforce-ci" (by decide)

/-- C9: the example summary (UAT, 50 total, 47 passed, 3 failed, 62%
coverage) renders with FAILED status, the warning coverage marker, both
conditional callout blocks, and fallback text containing
"47/50 tests passed" and "62% coverage". -/
theorem claim_C9 :
    status_triple sample_summary = ("#ff0000", "❌", "FAILED") ∧
    coverage_marker 62 = "⚠️" ∧
    fields_block sample_summary = Block.sectionFields
      ["*Environment:*\nUAT", "*Status:*\n❌ FAILED",
       "*Tests:*\n47/50 passed", "*Coverage:*\n62% ⚠️"] ∧
    failure_block 3 ∈
      (create_message_payload sample_webhook_cfg sample_summary sample_ctx
        "T").blocks ∧
    coverage_alert_block 62 ∈
      (create_message_payload sample_webhook_cfg sample_summary sample_ctx
        "T").blocks ∧
    (create_message_payload sample_webhook_cfg sample_summary sample_ctx
        "T").text =
      "❌ Salesforce tests failed for UAT - 47/50 tests passed, 62% coverage" ∧
    List.IsInfix "47/50 tests passed".data
      (create_message_payload sample_webhook_cfg sample_summary sample_ctx
        "T").text.data ∧
    List.IsInfix "62% coverage".data
      (create_message_payload sample_webhook_cfg sample_summary sample_ctx
        "T").text.data := by decide

/-- C10: when both credentials are configured, webhook mode wins
throughout: the payload is webhook-shaped (username and icon present),
the one request goes to the webhook URL (never to the bot API
endpoint), and the outcome is the webhook-mode interpretation of that
request's response. -/
theorem claim_C10 (u bt ch : String) (s : Summary) (ctx : GithubContext)
    (now : String) (payload : Payload)
    (transport : Dest → Payload → TransportResult)
    (hu : u ≠ "") (_hb : bt ≠ "") :
    issued_request ⟨u, bt, ch⟩ payload =
      some (Dest.webhook u, payload) ∧
    (create_message_payload ⟨u, bt, ch⟩ s ctx now).username =
      some "Salesforce CI Bot" ∧
    (create_message_payload ⟨u, bt, ch⟩ s ctx now).icon_emoji =
      some ":salesforce:" ∧
    send_notification ⟨u, bt, ch⟩ transport payload =
      (match transport (Dest.webhook u) payload with
       | TransportResult.exn _ => some false
       | TransportResult.response r => some (r.status_code == 200)) := by
  refine ⟨?_, ?_, ?_, ?_⟩
  · simp [issued_request, hu]
  · simp [create_message_payload, hu]
  · simp [create_message_payload, hu]
  · unfold send_notification
    rw [if_pos (by simpa using hu)]

/-- C10 witness: both credentials set concretely; the request targets
the webhook URL and the HTTP-200 transport yields success. -/
theorem claim_C10_witness :
    issued_request ⟨"https://hooks.example/x", "xoxb-1", "#salesforce-ci"⟩
        (create_message_payload sample_webhook_cfg sample_summary sample_ctx
          "T") =
      some (Dest.webhook "https://hooks.example/x",
        create_message_payload sample_webhook_cfg sample_summary sample_ctx
          "T") ∧
    (create_message_payload
        ⟨"https://hooks.example/x", "xoxb-1", "#salesforce-ci"⟩
        sample_summary sample_ctx "T").username =
      some "Salesforce CI Bot" ∧
    (create_message_payload
        ⟨"https://hooks.example/x", "xoxb-1", "#salesforce-ci"⟩
        sample_summary sample_ctx "T").icon_emoji =
      some ":salesforce:" ∧
    send_notification ⟨"https://hooks.example/x", "xoxb-1", "#salesforce-ci"⟩
        sample_transport_200
        (create_message_payload sample_webhook_cfg sample_summary sample_ctx
          "T") =
      (match sample_transport_200 (Dest.webhook "https://hooks.example/x")
          (create_message_payload sample_webhook_cfg sample_summary
            sample_ctx "T") with
       | TransportResult.exn _ => some false
       | TransportResult.response r => some (r.status_code == 200)) :=
  claim_C10 "https://hooks.example/x" "xoxb-1" "#salesforce-ci"
    sample_summary sample_ctx "T"
    (create_message_payload sample_webhook_cfg sample_summary sample_ctx "T")
    sample_transport_200 (by decide) (by decide)

/-- C8: the process exits 0 exactly when delivery succeeded; it exits 1
on usage error, on delivery failure, and when neither credential is
configured — in that last case without issuing any network request. The
exit code is always 0 or 1. -/
theorem claim_C8 (argv : List String) (env : Env) (now : String)
    (file : Option Summary)
    (transport : Dest → Payload → TransportResult) :
    ((main argv env now file transport).exit_code = 0 ∨
      (main argv env now file transport).exit_code = 1) ∧
    (argv.length < 2 → main argv env now file transport = ⟨1, none⟩) ∧
    (2 ≤ argv.length → (main_config env).webhook_url = "" →
      (main_config env).bot_token = "" →
      main argv env now file transport = ⟨1, none⟩) ∧
    (2 ≤ argv.length →
      ¬((main_config env).webhook_url = "" ∧
        (main_config env).bot_token = "") →
      (((main argv env now file transport).exit_code = 0 ↔
        send_test_results (main_config env) file (main_context argv env)
          now transport = some true) ∧
      (main argv env now file transport).request =
        issued_request (main_config env)
          (create_message_payload (main_config env) (load_test_summary file)
            (main_context argv env) now))) := by
  refine ⟨?_, ?_, ?_, ?_⟩
  · unfold main
    split
    · exact Or.inr rfl
    · dsimp only
      split
      · exact Or.inr rfl
      · split
        · exact Or.inr rfl
        · dsimp only
          split
          · exact Or.inl rfl
          · exact Or.inr rfl
  · intro h
    unfold main
    rw [if_pos h]
  · intro h2 hw hb
    unfold main
    rw [if_neg (by omega), if_pos ⟨hw, hb⟩]
  · intro h2 hcred
    unfold main
    rw [if_neg (by omega), if_neg hcred, init, if_neg hcred]
    constructor
    · dsimp only
      split
      · simp [*, send_test_results]
      · simp only [send_test_results]
        constructor
        · intro h
          exact absurd h (by omega)
        · intro h
          simp [h] at *
    · rfl

/-- C8 witness: with no credential in the environment, a concrete run
exits 1 without issuing any request. -/
theorem claim_C8_witness :
    main ["slack-notifier.py", "summary.json"] sample_env_nocreds "T" none
      sample_transport_200 = ⟨1, none⟩ :=
  (claim_C8 ["slack-notifier.py", "summary.json"] sample_env_nocreds "T"
      none sample_transport_200).2.2.1 (by decide) (by decide) (by decide)

end SlackNotifier
